import Mathlib

/-!
Verification of the scan-decide-notify-verify loop of `bot_logic.py`
(AajeTradeBot).  The Python module is shallowly embedded: every external
call (Twelve Data candle fetch, Finnhub quote, news fetch, pandas-ta
indicator computation) is an input supplied through an `Env` record, with
`Except Unit _` modelling "the call raised an exception".  Python
`try/except` blocks become matches that absorb the `error` branch; code
that is *not* inside a `try` propagates its exception.

A central fact of the source is embedded deterministically rather than as
an environment choice: the prompt f-string of `get_decision`
(lines 163-185) places conditional expressions *inside* format specs —
`{ind['rsi']:.1f if not pd.isna(ind['rsi']) else 'N/A'}` (line 167) and
three similar fields — and everything after the `:` is a literal format
spec, invalid for a float, so the formatting raises `ValueError` on every
evaluation.  Hence every execution of the body that obtains a price
raises before the Groq call; lines 187-200 are unreachable and no
decision is ever returned.  Raised exceptions carry the module state they
leave behind (the global credit-counter mutation of line 87 persists).

Floats are modelled as `ℚ`, with Python's NaN ("not available" indicator
value) as `none` in `Option ℚ`.  Numeric string formatting inside message
texts is abstracted (the claims never inspect the numeric rendering).
-/

namespace AajeBot

/-- A Python float that may be NaN: `none` stands for NaN ("not available"). -/
abbrev PFloat := Option ℚ

/-- Python truthiness of such a float: NaN is truthy, `0.0` is falsy. -/
def pyTruthy : PFloat → Bool
  | none => true
  | some q => q ≠ 0

/-- Python's `a or b` on floats (used by the Bollinger-band column fallback,
`bot_logic.py` lines 134-135). -/
def pyOr (a b : PFloat) : PFloat :=
  if pyTruthy a then a else b

/-- The shape the dictionary returned at line 197 would have under the
three-key schema, with `none` for an absent key.  The program as written
never constructs one — every execution raises at the prompt before the
`json.loads` of line 195 (see `oracle_never_reached`) — so this type only
gives the unreachable branch of `analyze_one` something to match on; no
theorem depends on how it types the raw parse result. -/
structure Decision where
  verdict : Option String
  confidence : Option Int
  reason : Option String
deriving DecidableEq

/-- Python truthiness of the decision dict (`if not decision`, line 247):
nonempty means truthy. -/
def Decision.truthy (d : Decision) : Bool :=
  d.verdict.isSome || d.confidence.isSome || d.reason.isSome

/-- The indicator snapshot `ind` built at lines 115-149; technical fields are
`none` exactly when the corresponding Python value is NaN. -/
structure Snap where
  price : ℚ
  rsi : PFloat
  ema20 : PFloat
  macd : PFloat
  macd_sig : PFloat
  bb_upper : PFloat
  bb_lower : PFloat
  adx : PFloat
deriving DecidableEq

/-- One entry of `stats["pending"]` (line 272). -/
structure PendingItem where
  symbol : String
  dir : String
  price : ℚ
deriving DecidableEq

/-- The module-level mutable state of `bot_logic.py` (lines 44-48) that the
claims touch: win/loss counters, the pending-signal mapping, the rolling
win rate, the daily credit counter and the hourly-best tracker. -/
structure BotState where
  wins : Nat
  losses : Nat
  pending : String → Option PendingItem
  recent_win_rate : ℚ
  daily_credits_used : Nat
  hourly_best_symbol : String
  hourly_best_conf : Int

/-- Initial module state (lines 44-48): counters zero, empty pending mapping,
neutral win rate 0.50, zero credits. -/
def initState : BotState :=
  { wins := 0, losses := 0, pending := fun _ => none, recent_win_rate := 0.5
    daily_credits_used := 0, hourly_best_symbol := "—", hourly_best_conf := 0 }

/-- Observable side effects of the loop: telegram sends, timer scheduling,
per-symbol scan logging, the credit alert send (line 327) and the quota
pause (lines 329-335). -/
inductive Event where
  | notify (symbol text : String) (price : Option ℚ)
  | timerSet (delaySec : Nat) (sid : String)
  | scanLog (symbol : String)
  | creditAlert (used : Nat)
  | quotaPause
deriving DecidableEq

/-- Outcomes of the external calls made while analyzing one symbol.
`Except.error ()` means the call raised. -/
structure Env where
  /-- `td_client.time_series(...).as_pandas()` (lines 83-84); `ok none` means
  `as_pandas` returned `None`; the list holds the close column. -/
  td_result : Except Unit (Option (List ℚ))
  /-- `finnhub_client.quote(...).get('c')` (lines 100-101); `ok none` means
  the key was absent. -/
  fh_quote : Except Unit (Option ℚ)
  /-- `finnhub_client.general_news(...)` headlines (line 154). -/
  news : Except Unit (List String)
  /-- The pandas-ta computations plus last-row extraction (lines 118-127),
  which are not inside a `try`: the resulting column lookup, or a raise. -/
  ta_row : Except Unit (String → PFloat)
  /-- `int(time.time())` at signal creation (line 271). -/
  now : Nat

/-- `CONF_THRESHOLD` default (line 36). -/
def CONF_THRESHOLD_BASE : Int := 82

/-- Line 40. -/
def MAX_DAILY_CREDITS : Nat := 780

/-- Line 41. -/
def CREDITS_WARNING_THRESHOLD : Nat := 650

/-- The fixed asset list (lines 50-59). -/
def assets : List String :=
  ["EUR/USD", "GBP/USD", "USD/JPY", "AUD/USD", "BTC/USD", "ETH/USD"]

/-- The dynamic confidence threshold computed at lines 253-258 of
`analyze_one` from the rolling win rate and the configured base. -/
def effective_threshold (recent : ℚ) (base : Int) : Int :=
  if recent > 0.60 then max 72 (base - 6)
  else if recent < 0.45 then min 88 (base + 4)
  else base

/-- `safe_float` (lines 126-127): column lookup in the last row; a missing
column and a NaN value both surface as `none` (both render as NaN, and the
two are indistinguishable to every use site). -/
def safe_float (row : String → PFloat) (col : String) : PFloat := row col

/-- The indicator snapshot construction, lines 114-149: when a candle frame
is present (`df is not None`), technical fields come from the pandas-ta row;
otherwise all technical fields are NaN. -/
def build_ind (price : ℚ) (df : Option (List ℚ)) (row : String → PFloat) : Snap :=
  match df with
  | some _ =>
      { price := price
        rsi := safe_float row "RSI_14"
        ema20 := safe_float row "EMA_20"
        macd := safe_float row "MACD_12_26_9"
        macd_sig := safe_float row "MACDs_12_26_9"
        bb_upper := pyOr (safe_float row "BBU_20_2.0") (safe_float row "BBU_20_2")
        bb_lower := pyOr (safe_float row "BBL_20_2.0") (safe_float row "BBL_20_2")
        adx := safe_float row "ADX_14" }
  | none =>
      { price := price, rsi := none, ema20 := none, macd := none
        macd_sig := none, bb_upper := none, bb_lower := none, adx := none }

/-- The credit increment performed by one attempt of `get_decision`
(lines 85-87): one credit exactly when the primary fetch returned a frame
of at least 70 bars; fallback-quote calls never touch the counter. -/
def creditGain (env : Env) : Nat :=
  match env.td_result with
  | .ok (some df) => if 70 ≤ df.length then 1 else 0
  | _ => 0

/-- Outcome of one execution of the `get_decision` body: either the
function returned (`result` is the value of the `return` that fired —
lines 107, 112 would give `none`, the unreachable line 197 a decision), or
an uncaught exception escaped it.  In both cases `credits` is the value of
the global credit counter afterwards: the line-87 increment persists when a
later statement raises.  On a raise, `ind` is the `ind` snapshot dict of
lines 115-149 if control had completed it, `none` when the pandas-ta block
itself raised mid-construction. -/
inductive GDOutcome where
  | ret (credits : Nat) (result : Option (Decision × ℚ))
  | raise (credits : Nat) (ind : Option Snap)
deriving DecidableEq

/-- The credit counter an attempt leaves behind. -/
def GDOutcome.creditsOf : GDOutcome → Nat
  | .ret c _ => c
  | .raise c _ => c

/-- One attempt of `get_decision` (the undecorated body, lines 72-200).
Primary fetch success requires ≥ 70 bars and increments the credit counter
(lines 85-88); otherwise the Finnhub quote supplies the price
(lines 97-107; a raise, a missing or a zero quote is caught there and the
function returns `(None, None)`); with no price at all it returns
`(None, None)` (lines 110-112).  The indicator block (117-137) runs
outside any `try`, so a pandas-ta raise escapes.  The news fetch
(151-158) is caught.  Then the prompt f-string (163-185) is evaluated:
its fields `{ind['rsi']:...}`, `{ind['macd']:...}`, `{ind['macd_sig']:...}`
and `{ind['adx']:...}` put a conditional expression inside the format
spec, an invalid format specifier for a float, so the formatting raises
`ValueError` on every evaluation.  Hence every attempt that obtains a
price raises, and the Groq call with its `json.loads` (lines 187-200) is
unreachable: no decision is ever returned. -/
def get_decision (env : Env) (credits0 : Nat) : GDOutcome :=
  let fetched : Option (List ℚ) × Option ℚ × Nat :=
    match env.td_result with
    | .ok (some d) =>
        if 70 ≤ d.length then (some d, some (d.getLast?.getD 0), credits0 + 1)
        else (some d, none, credits0)
    | _ => (none, none, credits0)
  let df := fetched.1
  let credits := fetched.2.2
  let priceOpt : Option ℚ :=
    match fetched.2.1 with
    | some p => some p
    | none =>
        match env.fh_quote with
        | .ok (some p) => if p = 0 then none else some p
        | _ => none
  match priceOpt with
  | none => .ret credits none
  | some price =>
      match df, env.ta_row with
      | some _, .error _ => .raise credits none
      | _, _ =>
          let row : String → PFloat :=
            match env.ta_row with
            | .ok r => r
            | .error _ => fun _ => none
          let ind := build_ind price df row
          let _news_text : String :=
            match env.news with
            | .ok ns =>
                if ns.isEmpty then "Stable market"
                else String.intercalate " | " ((ns.take 5).map (fun h => h.take 120))
            | .error _ => "No news available"
          .raise credits (some ind)

/-- The inner tenacity decorator (line 71): at most two attempts of the
body; the credit mutation of a failed first attempt persists into the
second. -/
def get_decision_retry_inner (env : Env) (c : Nat) : GDOutcome :=
  match get_decision env c with
  | .ret cr res => .ret cr res
  | .raise cr _ => get_decision env cr

/-- The outer tenacity decorator (lines 66-70): at most two attempts of the
inner-decorated function (the inner layer's `RetryError` is an `Exception`,
so `retry_if_exception_type(Exception)` retries it).  This is `get_decision`
as `analyze_one` calls it: a deterministically raising body runs four
times, then the raise propagates. -/
def get_decision_retried (env : Env) (c : Nat) : GDOutcome :=
  match get_decision_retry_inner env c with
  | .ret cr res => .ret cr res
  | .raise cr _ => get_decision_retry_inner env cr

/-- `check_outcome` (lines 202-241).  The pending entry is popped *before*
the `try`; every failure inside the `try` (quote raise, absent or zero
exit price) is caught, leaving counters and win rate untouched. -/
def check_outcome (quote : Except Unit (Option ℚ)) (sid : String) (st : BotState) :
    BotState × List Event :=
  match st.pending sid with
  | none => (st, [])
  | some item =>
      let st1 := { st with pending := fun k => if k = sid then none else st.pending k }
      match quote with
      | .error _ => (st1, [])
      | .ok none => (st1, [])
      | .ok (some exit_price) =>
          if exit_price = 0 then (st1, [])
          else
            let won : Bool :=
              (item.dir == "BUY" && decide (item.price < exit_price))
                || (item.dir == "SELL" && decide (exit_price < item.price))
            let st2 :=
              if won then { st1 with wins := st1.wins + 1 }
              else { st1 with losses := st1.losses + 1 }
            let tag := if won then "✅ WIN" else "❌ LOSS"
            let msg := "**SIGNAL RESULT** " ++ tag ++ "\n" ++ item.symbol ++ " " ++ item.dir
            let st3 :=
              { st2 with recent_win_rate :=
                  st2.recent_win_rate * 0.65 + (if won then 1 else 0) * 0.35 }
            (st3, [Event.notify "SYSTEM" msg none])

/-- `analyze_one` (lines 243-275).  The call to the decorated
`get_decision` either returns — and the only value it can produce is
`(None, None)`, upon which `analyze_one` returns silently — or raises;
nothing in `analyze_one` or `run_scanner` catches the raise, so it
escapes carrying the mutated credit counter (`Except.error` holds the
module state at the escape).  The signal-policy code below the verdict
test (lines 247-275) is translated in full but is unreachable, since it
requires a returned decision. -/
def analyze_one (env : Env) (base : Int) (symbol : String) (st : BotState) :
    Except BotState (BotState × List Event) :=
  match get_decision_retried env st.daily_credits_used with
  | .raise cr _ => .error { st with daily_credits_used := cr }
  | .ret cr res =>
      let st0 := { st with daily_credits_used := cr }
      match res with
      | none => .ok (st0, [])
      | some (dec, price) =>
          if dec.truthy = false then .ok (st0, [])
          else
            match dec.verdict with
            | none => .error st0
            | some v =>
                if v = "WAIT" then .ok (st0, [])
                else
                  let conf : Int := dec.confidence.getD 0
                  let eff := effective_threshold st0.recent_win_rate base
                  let st1 :=
                    if st0.hourly_best_conf < conf then
                      { st0 with hourly_best_symbol := symbol, hourly_best_conf := conf }
                    else st0
                  if conf < eff then .ok (st1, [])
                  else
                    let reason := dec.reason.getD "AI signal"
                    let text := v ++ " " ++ toString conf ++ "% – " ++ reason
                        ++ " (threshold: " ++ toString eff ++ "%)"
                    let sid := symbol ++ "_" ++ toString env.now
                    let st2 :=
                      { st1 with pending :=
                          fun k => if k = sid then some ⟨symbol, v, price⟩ else st1.pending k }
                    .ok (st2, [Event.notify symbol text (some price),
                               Event.timerSet 165 sid])

/-- The per-asset credit checks of the scan loop body (lines 323-335): the
warning alert is sent whenever the counter is at or above the warning
threshold, and reaching `MAX_DAILY_CREDITS - 20` pauses until the UTC
reset and zeroes the counter. -/
def credit_checks (st : BotState) : BotState × List Event :=
  let evs1 :=
    if CREDITS_WARNING_THRESHOLD ≤ st.daily_credits_used then
      [Event.creditAlert st.daily_credits_used]
    else []
  if MAX_DAILY_CREDITS - 20 ≤ st.daily_credits_used then
    ({ st with daily_credits_used := 0 }, evs1 ++ [Event.quotaPause])
  else (st, evs1)

/-- The `for sym in assets()` body of `run_scanner` (lines 318-335): log the
symbol, analyze it, then run the credit checks.  A raise escaping
`analyze_one` propagates out of the loop (there is no per-symbol
`try/except` in `run_scanner`); the `Except.error` carries the module
state at the escape. -/
def run_scanner_round (envs : String → Env) (base : Int) :
    List String → BotState → Except BotState (BotState × List Event)
  | [], st => .ok (st, [])
  | sym :: rest, st =>
      match analyze_one (envs sym) base sym st with
      | .error e => .error e
      | .ok (st1, evs1) =>
          let r2 := credit_checks st1
          match run_scanner_round envs base rest r2.1 with
          | .error e => .error e
          | .ok (st3, evs3) =>
              .ok (st3, Event.scanLog sym :: (evs1 ++ r2.2 ++ evs3))

/-- How the process ends, per the `__main__` guard (lines 340-346): an
exception reaching the top is logged critical and the process terminates. -/
inductive ExitKind where
  | fatalLogged
  | keptRunning
deriving DecidableEq

/-- The `__main__` guard applied to one scan round: any exception escaping
the loop is fatal (lines 345-346); otherwise the scanner keeps running. -/
def main_guard (envs : String → Env) (base : Int) (st : BotState) : ExitKind :=
  match run_scanner_round envs base assets st with
  | .error _ => .fatalLogged
  | .ok _ => .keptRunning

/-- The rolling win rate after a sequence of verified outcomes, as produced
by repeated `check_outcome` updates (line 238) from the initial 0.50. -/
def win_rate_after (outcomes : List Bool) : ℚ :=
  outcomes.foldl (fun r o => r * 0.65 + (if o then 1 else 0) * 0.35) 0.5

/-- Whether an event is the credit-warning alert send of line 327. -/
def isCreditAlert : Event → Bool
  | .creditAlert _ => true
  | _ => false

/-- A symbol whose primary fetch succeeds with 70 bars and whose pandas-ta
computation is well behaved — the state of affairs the spec's happy path
assumes. -/
def envPrime : Env :=
  { td_result := .ok (some (List.replicate 70 1.2)), fh_quote := .error ()
    news := .error (), ta_row := .ok fun _ => none, now := 0 }

/-- A symbol for which every provider fails: no price is ever obtained. -/
def envNoData : Env :=
  { td_result := .error (), fh_quote := .error (), news := .error ()
    ta_row := .ok fun _ => none, now := 0 }

/-- A symbol priced by the Finnhub fallback (primary fetch raised). -/
def envFallback : Env :=
  { td_result := .error (), fh_quote := .ok (some 3), news := .error ()
    ta_row := .ok fun _ => none, now := 0 }

/-- Asset map whose first configured symbol obtains a price and whose other
symbols get no data. -/
def envsFirstPriced : String → Env :=
  fun s => if s = "EUR/USD" then envPrime else envNoData

/-- Exhaustive behavior of one `get_decision` attempt: either no source
yields a price, the body returns `(None, None)` and the counter is
untouched; or a price exists and the attempt raises — in the pandas-ta
block, or else deterministically in the prompt formatting — having added
`creditGain env` to the counter, with a raise payload that does not depend
on the incoming counter value. -/
theorem get_decision_shape (env : Env) :
    ((∀ c, get_decision env c = .ret c none) ∧ creditGain env = 0) ∨
    (∃ ind, ∀ c, get_decision env c = .raise (c + creditGain env) ind) := by
  obtain ⟨td, fh, news, ta, now⟩ := env
  rcases td with e | od
  · rcases fh with e2 | oq
    · exact Or.inl ⟨fun c => rfl, rfl⟩
    · rcases oq with _ | p
      · exact Or.inl ⟨fun c => rfl, rfl⟩
      · by_cases hp : p = 0
        · subst hp
          exact Or.inl ⟨fun c => by simp [get_decision], rfl⟩
        · rcases ta with e3 | r
          · exact Or.inr ⟨some (build_ind p none fun _ => none),
              fun c => by simp [get_decision, creditGain, hp]⟩
          · exact Or.inr ⟨some (build_ind p none r),
              fun c => by simp [get_decision, creditGain, hp]⟩
  · rcases od with _ | d
    · rcases fh with e2 | oq
      · exact Or.inl ⟨fun c => rfl, rfl⟩
      · rcases oq with _ | p
        · exact Or.inl ⟨fun c => rfl, rfl⟩
        · by_cases hp : p = 0
          · subst hp
            exact Or.inl ⟨fun c => by simp [get_decision], rfl⟩
          · rcases ta with e3 | r
            · exact Or.inr ⟨some (build_ind p none fun _ => none),
                fun c => by simp [get_decision, creditGain, hp]⟩
            · exact Or.inr ⟨some (build_ind p none r),
                fun c => by simp [get_decision, creditGain, hp]⟩
    · by_cases hlen : 70 ≤ d.length
      · rcases ta with e3 | r
        · exact Or.inr ⟨none, fun c => by simp [get_decision, creditGain, hlen]⟩
        · exact Or.inr ⟨some (build_ind (d.getLast?.getD 0) (some d) r),
            fun c => by simp [get_decision, creditGain, hlen]⟩
      · rcases fh with e2 | oq
        · exact Or.inl ⟨fun c => by simp [get_decision, hlen],
            by simp [creditGain, hlen]⟩
        · rcases oq with _ | p
          · exact Or.inl ⟨fun c => by simp [get_decision, hlen],
              by simp [creditGain, hlen]⟩
          · by_cases hp : p = 0
            · subst hp
              exact Or.inl ⟨fun c => by simp [get_decision, hlen],
                by simp [creditGain, hlen]⟩
            · rcases ta with e3 | r
              · exact Or.inr ⟨none,
                  fun c => by simp [get_decision, creditGain, hlen, hp]⟩
              · exact Or.inr ⟨some (build_ind p (some d) r),
                  fun c => by simp [get_decision, creditGain, hlen, hp]⟩

/-- The tenacity-decorated `get_decision`: a body with no price returns
`(None, None)` on the first attempt; a raising body is re-run four times in
total, each attempt re-applying its credit increment, before the raise
escapes to `analyze_one`. -/
theorem get_decision_retried_shape (env : Env) (c : Nat) :
    (get_decision_retried env c = .ret c none ∧ get_decision env c = .ret c none ∧
        creditGain env = 0) ∨
    (∃ ind, get_decision_retried env c = .raise (c + 4 * creditGain env) ind ∧
        get_decision env c = .raise (c + creditGain env) ind) := by
  rcases get_decision_shape env with ⟨h, h0⟩ | ⟨ind, h⟩
  · exact Or.inl ⟨by simp [get_decision_retried, get_decision_retry_inner, h], h c, h0⟩
  · refine Or.inr ⟨ind, ?_, h c⟩
    have hin : ∀ x, get_decision_retry_inner env x =
        .raise (x + creditGain env + creditGain env) ind := by
      intro x
      simp [get_decision_retry_inner, h]
    simp only [get_decision_retried, hin]
    congr 1
    ring

/-- A returning `analyze_one` call is an exact no-op apart from its empty
event list: the decorated `get_decision` only ever returns `(None, None)`
with the counter unchanged, so `analyze_one` falls into the
`if not decision` early return. -/
theorem analyze_one_ok_eq (env : Env) (base : Int) (sym : String) (st : BotState)
    (p : BotState × List Event) (h : analyze_one env base sym st = .ok p) :
    p = (st, []) := by
  rcases get_decision_retried_shape env st.daily_credits_used with ⟨hs, -, -⟩ | ⟨ind, hs, -⟩
  · simp only [analyze_one, hs] at h
    injection h with h2
    exact h2.symm
  · simp only [analyze_one, hs] at h
    exact Except.noConfusion h

/-- A raising `analyze_one` call escapes with exactly the four per-attempt
credit increments applied and everything else untouched. -/
theorem analyze_one_error_eq (env : Env) (base : Int) (sym : String) (st : BotState)
    (stE : BotState) (h : analyze_one env base sym st = .error stE) :
    stE = { st with daily_credits_used := st.daily_credits_used + 4 * creditGain env } := by
  rcases get_decision_retried_shape env st.daily_credits_used with ⟨hs, -, -⟩ | ⟨ind, hs, -⟩
  · simp only [analyze_one, hs] at h
    exact Except.noConfusion h
  · simp only [analyze_one, hs] at h
    injection h with h2
    exact h2.symm

/-- C5: for every recent-win-rate value r and base threshold T₀, the
effective threshold equals `max 72 (T₀ - 6)` when `r > 0.60`, equals
`min 88 (T₀ + 4)` when `r < 0.45`, and equals T₀ unchanged otherwise. -/
theorem effective_threshold_three_branch (r : ℚ) (T0 : Int) :
    (0.60 < r → effective_threshold r T0 = max 72 (T0 - 6)) ∧
    (r < 0.45 → effective_threshold r T0 = min 88 (T0 + 4)) ∧
    (¬ 0.60 < r → ¬ r < 0.45 → effective_threshold r T0 = T0) := by
  refine ⟨fun h => ?_, fun h => ?_, fun h1 h2 => ?_⟩
  · simp only [effective_threshold, gt_iff_lt, if_pos h]
  · have hn : ¬ (0.60 : ℚ) < r := by intro hc; linarith
    simp only [effective_threshold, gt_iff_lt, if_neg hn, if_pos h]
  · simp only [effective_threshold, gt_iff_lt, if_neg h1, if_neg h2]

/-- Witness for C5: at win rate 0.7 and base 82 the lowered branch fires. -/
theorem effective_threshold_three_branch_witness :
    effective_threshold 0.7 82 = max 72 (82 - 6) :=
  (effective_threshold_three_branch 0.7 82).1 (by norm_num)

/-- C7: for a verified pending signal whose exit price was successfully
re-fetched, the outcome is a WIN (wins counter incremented) precisely when
the direction is BUY and the exit exceeds the entry or the direction is
SELL and the exit is below the entry, and a LOSS (losses counter
incremented) otherwise, including when exit equals entry. -/
theorem check_outcome_win_iff (sid : String) (st : BotState)
    (item : PendingItem) (ep : ℚ) (res : BotState × List Event)
    (hp : st.pending sid = some item) (hep : ep ≠ 0)
    (hres : check_outcome (.ok (some ep)) sid st = res) :
    (res.1.wins = st.wins + 1 ∧ res.1.losses = st.losses ↔
       (item.dir = "BUY" ∧ item.price < ep) ∨ (item.dir = "SELL" ∧ ep < item.price)) ∧
    (res.1.losses = st.losses + 1 ∧ res.1.wins = st.wins ↔
       ¬ ((item.dir = "BUY" ∧ item.price < ep) ∨ (item.dir = "SELL" ∧ ep < item.price))) ∧
    (ep = item.price → res.1.losses = st.losses + 1) := by
  have hb : ((item.dir == "BUY" && decide (item.price < ep))
        || (item.dir == "SELL" && decide (ep < item.price))) = true ↔
      ((item.dir = "BUY" ∧ item.price < ep) ∨ (item.dir = "SELL" ∧ ep < item.price)) := by
    simp
  by_cases hP : (item.dir = "BUY" ∧ item.price < ep) ∨ (item.dir = "SELL" ∧ ep < item.price)
  · simp only [check_outcome, hp, if_neg hep, hb.mpr hP, if_true] at hres
    subst hres
    refine ⟨by simp [hP], by simp [hP], fun he => ?_⟩
    rcases hP with ⟨_, hlt⟩ | ⟨_, hlt⟩ <;> rw [he] at hlt <;> exact absurd hlt (lt_irrefl _)
  · have hbf : ((item.dir == "BUY" && decide (item.price < ep))
        || (item.dir == "SELL" && decide (ep < item.price))) = false := by
      rw [← Bool.not_eq_true, hb]; exact hP
    simp only [check_outcome, hp, if_neg hep, hbf, Bool.false_eq_true, if_false] at hres
    subst hres
    exact ⟨by simp [hP], by simp [hP], fun _ => rfl⟩

/-- Witness for C7: BUY at entry 1 with exit 2 is scored as a win. -/
theorem check_outcome_win_iff_witness :
    ((check_outcome (.ok (some 2)) "EUR/USD_1"
        { initState with pending :=
            fun k => if k = "EUR/USD_1" then some ⟨"EUR/USD", "BUY", 1⟩ else none }).1.wins = 0 + 1) :=
  ((check_outcome_win_iff "EUR/USD_1" _ ⟨"EUR/USD", "BUY", 1⟩ 2 _
      (by decide) (by norm_num) rfl).1.mpr (Or.inl ⟨rfl, by norm_num⟩)).1

/-- C8: once a pending id is popped it is gone: after any invocation of
`check_outcome` on a pending id, the id maps to nothing; a second
invocation with the same id is a no-op returning the state unchanged; and
a failed exit-price re-fetch (raise, absent quote, or zero quote) still
removes the entry while leaving the win/loss counters and the rolling win
rate untouched and emitting nothing. -/
theorem check_outcome_at_most_once (q q2 : Except Unit (Option ℚ)) (sid : String)
    (st : BotState) (item : PendingItem)
    (hp : st.pending sid = some item) :
    ((check_outcome q sid st).1.pending sid = none) ∧
    (check_outcome q2 sid (check_outcome q sid st).1 = ((check_outcome q sid st).1, [])) ∧
    ((q = .error () ∨ q = .ok none ∨ q = .ok (some 0)) →
       (check_outcome q sid st).1.wins = st.wins ∧
       (check_outcome q sid st).1.losses = st.losses ∧
       (check_outcome q sid st).1.recent_win_rate = st.recent_win_rate ∧
       (∀ k, k ≠ sid → (check_outcome q sid st).1.pending k = st.pending k) ∧
       (check_outcome q sid st).2 = []) := by
  have hgone : (check_outcome q sid st).1.pending sid = none := by
    rcases q with e | oq
    · simp [check_outcome, hp]
    · rcases oq with _ | ep
      · simp [check_outcome, hp]
      · by_cases hz : ep = 0
        · simp [check_outcome, hp, hz]
        · simp only [check_outcome, hp, if_neg hz]
          split <;> simp
  have hnoop : ∀ (s : BotState), s.pending sid = none → check_outcome q2 sid s = (s, []) := by
    intro s hs
    simp [check_outcome, hs]
  refine ⟨hgone, hnoop _ hgone, fun hfail => ?_⟩
  rcases hfail with rfl | rfl | rfl <;>
    · simp [check_outcome, hp]
      exact fun k hk hk2 => absurd hk2 hk

/-- Witness for C8: a pending BUY signal whose verification quote raises is
removed with stats untouched, and a double fire is a no-op. -/
theorem check_outcome_at_most_once_witness :
    ((check_outcome (.error ()) "EUR/USD_1"
        { initState with pending :=
            fun k => if k = "EUR/USD_1" then some ⟨"EUR/USD", "BUY", 1⟩ else none }).1.pending
      "EUR/USD_1" = none) :=
  (check_outcome_at_most_once (.error ()) (.ok (some 2)) "EUR/USD_1" _
      ⟨"EUR/USD", "BUY", 1⟩ (by decide)).1

/-- C6: the rolling win rate starts at 0.50, follows the exponential
recurrence `r_n = 0.65 * r_(n-1) + 0.35 * o_n` at every verified outcome,
each successful `check_outcome` performs exactly one such update, and no
step of the scan loop (`analyze_one` returning or raising, a whole scan
round returning or aborting) ever changes it — the Outcome Verifier is its
only writer. -/
theorem win_rate_exponential :
    initState.recent_win_rate = 0.5 ∧
    win_rate_after [] = 0.5 ∧
    (∀ (os : List Bool) (o : Bool),
      win_rate_after (os ++ [o]) =
        0.65 * win_rate_after os + 0.35 * (if o then 1 else 0)) ∧
    (∀ (sid : String) (st : BotState) (item : PendingItem) (ep : ℚ),
      st.pending sid = some item → ep ≠ 0 →
      (check_outcome (.ok (some ep)) sid st).1.recent_win_rate =
        0.65 * st.recent_win_rate +
          0.35 * (if ((item.dir == "BUY" && decide (item.price < ep))
              || (item.dir == "SELL" && decide (ep < item.price))) then 1 else 0)) ∧
    (∀ (env : Env) (base : Int) (sym : String) (st : BotState) (p : BotState × List Event),
      analyze_one env base sym st = .ok p → p.1.recent_win_rate = st.recent_win_rate) ∧
    (∀ (env : Env) (base : Int) (sym : String) (st stE : BotState),
      analyze_one env base sym st = .error stE → stE.recent_win_rate = st.recent_win_rate) ∧
    (∀ (envs : String → Env) (base : Int) (syms : List String) (st : BotState)
        (p : BotState × List Event),
      run_scanner_round envs base syms st = .ok p →
      p.1.recent_win_rate = st.recent_win_rate) ∧
    (∀ (envs : String → Env) (base : Int) (syms : List String) (st stE : BotState),
      run_scanner_round envs base syms st = .error stE →
      stE.recent_win_rate = st.recent_win_rate) := by
  have hok : ∀ (env : Env) (base : Int) (sym : String) (st : BotState)
      (p : BotState × List Event),
      analyze_one env base sym st = .ok p → p.1.recent_win_rate = st.recent_win_rate := by
    intro env base sym st p h
    rw [analyze_one_ok_eq env base sym st p h]
  have herr : ∀ (env : Env) (base : Int) (sym : String) (st stE : BotState),
      analyze_one env base sym st = .error stE → stE.recent_win_rate = st.recent_win_rate := by
    intro env base sym st stE h
    rw [analyze_one_error_eq env base sym st stE h]
  have hcc : ∀ st : BotState, (credit_checks st).1.recent_win_rate = st.recent_win_rate := by
    intro st
    unfold credit_checks
    dsimp only
    repeat' split
    all_goals rfl
  refine ⟨rfl, rfl, fun os o => ?_, fun sid st item ep hp hep => ?_, hok, herr, ?_, ?_⟩
  · unfold win_rate_after
    rw [List.foldl_append]
    cases o <;> simp <;> ring
  · simp only [check_outcome, hp, if_neg hep]
    by_cases hw : ((item.dir == "BUY" && decide (item.price < ep))
        || (item.dir == "SELL" && decide (ep < item.price))) = true
    · simp [hw]; ring
    · rw [Bool.not_eq_true] at hw
      simp [hw]; ring
  · intro envs base syms
    induction syms with
    | nil =>
        intro st p h
        injection h with h2
        subst h2
        rfl
    | cons sym rest ih =>
        intro st p h
        unfold run_scanner_round at h
        cases ha : analyze_one (envs sym) base sym st with
        | error e => rw [ha] at h; exact Except.noConfusion h
        | ok r1 =>
            have h12 := analyze_one_ok_eq _ _ _ _ _ ha
            subst h12
            rw [ha] at h
            dsimp only at h
            cases hb : run_scanner_round envs base rest (credit_checks st).1 with
            | error e => rw [hb] at h; exact Except.noConfusion h
            | ok r3 =>
                obtain ⟨st3, evs3⟩ := r3
                rw [hb] at h
                injection h with h2
                subst h2
                have e3 := ih _ _ hb
                simp only []
                rw [e3, hcc]
  · intro envs base syms
    induction syms with
    | nil =>
        intro st stE h
        exact Except.noConfusion h
    | cons sym rest ih =>
        intro st stE h
        unfold run_scanner_round at h
        cases ha : analyze_one (envs sym) base sym st with
        | error e =>
            rw [ha] at h
            injection h with h2
            subst h2
            exact herr _ _ _ _ _ ha
        | ok r1 =>
            have h12 := analyze_one_ok_eq _ _ _ _ _ ha
            subst h12
            rw [ha] at h
            dsimp only at h
            cases hb : run_scanner_round envs base rest (credit_checks st).1 with
            | error e =>
                rw [hb] at h
                injection h with h2
                subst h2
                rw [ih _ _ hb, hcc]
            | ok r3 =>
                obtain ⟨st3, evs3⟩ := r3
                rw [hb] at h
                exact Except.noConfusion h

/-- Witness for C6: a winning BUY verification moves the neutral 0.50 win
rate to 0.65 * 0.50 + 0.35 = 0.675. -/
theorem win_rate_exponential_witness :
    (check_outcome (.ok (some 2)) "S_1"
        { initState with pending :=
            fun k => if k = "S_1" then some ⟨"EUR/USD", "BUY", 1⟩ else none }).1.recent_win_rate
      = 0.675 := by
  have h := win_rate_exponential.2.2.2.1 "S_1"
      { initState with pending :=
          fun k => if k = "S_1" then some ⟨"EUR/USD", "BUY", 1⟩ else none }
      ⟨"EUR/USD", "BUY", 1⟩ 2 (by decide) (by norm_num)
  rw [h]
  norm_num [initState]

/-- C1 (code bug): the notification path of `analyze_one` is dead code.
Every returning call emits no event and leaves the pending mapping
untouched — no notification, pending signal or 165-second verification
timer can ever be produced — because `get_decision` never returns a
decision: on the very inputs the claim's notification scenario needs (a
70-bar primary fetch with indicators computed), every attempt raises
`ValueError` at the prompt f-string and `analyze_one` escapes with only
the four per-attempt credit increments applied. -/
theorem signal_path_dead :
    (∀ (env : Env) (base : Int) (symbol : String) (st : BotState)
        (p : BotState × List Event),
        analyze_one env base symbol st = .ok p →
        p.2 = [] ∧ p.1.pending = st.pending) ∧
    (analyze_one envPrime 82 "EUR/USD" initState =
        .error { initState with daily_credits_used := 4 }) := by
  refine ⟨fun env base symbol st p h => ?_, rfl⟩
  rw [analyze_one_ok_eq env base symbol st p h]
  exact ⟨rfl, rfl⟩

/-- Witness for C1: a no-data symbol returns silently with nothing emitted
and the pending mapping intact. -/
theorem signal_path_dead_witness :
    analyze_one envNoData 82 "EUR/USD" initState = .ok (initState, []) ∧
    (((initState, ([] : List Event)).2 = []) ∧
      (initState, ([] : List Event)).1.pending = initState.pending) :=
  ⟨rfl, signal_path_dead.1 envNoData 82 "EUR/USD" initState (initState, []) rfl⟩

/-- C2 (code bug): a per-symbol failure does abort the scheduler.  A round
whose first symbol obtains a price dies there: the prompt `ValueError`
escapes `analyze_one`, aborts the round, and reaches the `__main__` guard,
which logs it as fatal and ends the process.  Only a round in which every
symbol's data acquisition fails completely — the try-wrapped fetch stages
absorbing every raise — survives, processing (and logging) all six
symbols. -/
theorem scan_loop_dies_on_price :
    run_scanner_round envsFirstPriced 82 assets initState =
        .error { initState with daily_credits_used := 4 } ∧
    main_guard envsFirstPriced 82 initState = .fatalLogged ∧
    run_scanner_round (fun _ => envNoData) 82 assets initState =
        .ok (initState, assets.map Event.scanLog) :=
  ⟨rfl, rfl, rfl⟩

/-- The pandas-ta row used by the C3 counterexample: RSI present, the
remaining columns absent. -/
def rowC3 : String → PFloat := fun c => if c = "RSI_14" then some 55 else none

/-- Inputs for the C3 counterexample: the primary provider returns a
69-bar frame (below the 70-bar minimum), so the price comes from the
fallback quote — yet the frame is present. -/
def envC3 : Env :=
  { td_result := .ok (some (List.replicate 69 1)), fh_quote := .ok (some 5)
    news := .error (), ta_row := .ok rowC3, now := 0 }

/-- C3 counterexample, traced on the real control flow: with a fetched
series of 69 bars — strictly below the 70-bar minimum — `get_decision`
still computes the technical indicator fields (the snapshot it has built
when it raises at the prompt has RSI populated, and no primary credit was
consumed), refuting "a series below the threshold yields a snapshot with
only the price populated and every technical field marked not
available". -/
theorem ind_under_threshold_cex :
    get_decision envC3 0 =
      .raise 0 (some (build_ind 5 (some (List.replicate 69 1)) rowC3)) ∧
    (build_ind 5 (some (List.replicate 69 1)) rowC3).rsi = some 55 ∧
    (List.replicate 69 (1 : ℚ)).length < 70 :=
  ⟨rfl, rfl, by simp⟩

/-- C3 as amended: the technical fields of the snapshot the code builds
track the *presence* of the fetched frame, not its length: an execution
whose primary fetch yielded no frame builds an all-not-available snapshot,
while any present frame — regardless of bar count — yields fields read
from the pandas-ta row.  (Every execution that builds a snapshot then
raises at the prompt formatting before any oracle use.) -/
theorem ind_follows_frame_presence (env : Env) (c cr : Nat) (snap : Snap)
    (h : get_decision env c = .raise cr (some snap)) :
    ((env.td_result = .error () ∨ env.td_result = .ok none) →
       snap.rsi = none ∧ snap.ema20 = none ∧ snap.macd = none ∧ snap.macd_sig = none ∧
       snap.bb_upper = none ∧ snap.bb_lower = none ∧ snap.adx = none) ∧
    (∀ (df : List ℚ) (row : String → PFloat),
       env.td_result = .ok (some df) → env.ta_row = .ok row →
       snap.rsi = row "RSI_14" ∧ snap.ema20 = row "EMA_20" ∧
       snap.macd = row "MACD_12_26_9" ∧ snap.macd_sig = row "MACDs_12_26_9" ∧
       snap.bb_upper = pyOr (row "BBU_20_2.0") (row "BBU_20_2") ∧
       snap.bb_lower = pyOr (row "BBL_20_2.0") (row "BBL_20_2") ∧
       snap.adx = row "ADX_14") := by
  constructor
  · intro habs
    rcases habs with h1 | h1 <;>
      · rw [get_decision, h1] at h
        dsimp only at h
        repeat' split at h
        all_goals first
          | exact GDOutcome.noConfusion h
          | (injection h with hc hpay
             first
               | exact Option.noConfusion hpay
               | (injection hpay with hsnap
                  subst hsnap
                  simp [build_ind]))
  · intro df row h1 h2
    rw [get_decision, h1, h2] at h
    dsimp only at h
    repeat' split at h
    all_goals first
      | exact GDOutcome.noConfusion h
      | (injection h with hc hpay
         first
           | exact Option.noConfusion hpay
           | (injection hpay with hsnap
              subst hsnap
              simp [build_ind, safe_float]))

/-- Witness for the amended C3: for the 69-bar counterexample inputs the
snapshot's RSI is exactly the pandas-ta row lookup. -/
theorem ind_follows_frame_presence_witness :
    (build_ind 5 (some (List.replicate 69 1)) rowC3).rsi = rowC3 "RSI_14" :=
  ((ind_follows_frame_presence envC3 0 0
      (build_ind 5 (some (List.replicate 69 1)) rowC3) rfl).2
    (List.replicate 69 1) rowC3 rfl rfl).1

/-- C4 (code bug): the oracle is never consulted and no response is ever
parsed.  Every return of `get_decision` — body or tenacity-decorated —
carries no decision (a fortiori no partial decision ever reaches the
caller, and none is ever schema-checked either: the `json.loads` of
line 195 is unreachable); concretely, a symbol priced by the fallback
quote raises at the prompt instead of reaching the Groq call. -/
theorem oracle_never_reached :
    (∀ (env : Env) (c cr : Nat) (res : Option (Decision × ℚ)),
        get_decision env c = .ret cr res → res = none) ∧
    (∀ (env : Env) (c cr : Nat) (res : Option (Decision × ℚ)),
        get_decision_retried env c = .ret cr res → res = none) ∧
    (get_decision envFallback 0 = .raise 0 (some (build_ind 3 none fun _ => none))) := by
  refine ⟨fun env c cr res h => ?_, fun env c cr res h => ?_, rfl⟩
  · rcases get_decision_shape env with ⟨hs, -⟩ | ⟨ind, hs⟩
    · rw [hs c] at h
      injection h with h1 h2
      exact h2.symm
    · rw [hs c] at h
      exact GDOutcome.noConfusion h
  · rcases get_decision_retried_shape env c with ⟨hs, -, -⟩ | ⟨ind, hs, -⟩
    · rw [hs] at h
      injection h with h1 h2
      exact h2.symm
    · rw [hs] at h
      exact GDOutcome.noConfusion h

/-- Witness for C4: a no-data symbol's attempt returns, and what it returns
carries no decision. -/
theorem oracle_never_reached_witness :
    get_decision envNoData 0 = .ret 0 none ∧
    (none : Option (Decision × ℚ)) = none :=
  ⟨rfl, oracle_never_reached.1 envNoData 0 0 none rfl⟩

/-- Round-start state for the C9 evaluation: 647 credits used, three below
the warning threshold of 650. -/
def stC9 : BotState := { initState with daily_credits_used := 647 }

/-- C9 (code bug): the warning alert is unreachable.  Each `get_decision`
attempt adds a credit exactly when the primary fetch returned ≥ 70 bars
and never on a fallback call; but a surviving scan round never raises the
counter (it is unchanged by every returning `analyze_one` and at most
reset by the quota check), and an alert inside a surviving round forces
the counter to have been at or above the threshold already at round start
— so starting from the initial counter of 0 the threshold can never be
crossed.  The counter climbs only inside attempts that end in the prompt
`ValueError` and kill the process before any alert check runs: from 647
credits, the first priced symbol leaves 651 (four tenacity increments)
and aborts the round.  The per-asset check itself (lines 323-327) fires
whenever the counter is at or above the threshold, with no
once-per-crossing latch. -/
theorem credit_alert_unreachable :
    (∀ (env : Env) (c : Nat), (get_decision env c).creditsOf = c + creditGain env) ∧
    (∀ (envs : String → Env) (base : Int) (syms : List String) (st : BotState)
        (p : BotState × List Event),
        run_scanner_round envs base syms st = .ok p →
          p.1.daily_credits_used ≤ st.daily_credits_used ∧
          (p.2.any isCreditAlert = true →
            CREDITS_WARNING_THRESHOLD ≤ st.daily_credits_used)) ∧
    (∀ st : BotState, ((credit_checks st).2.any isCreditAlert = true ↔
        CREDITS_WARNING_THRESHOLD ≤ st.daily_credits_used)) ∧
    (run_scanner_round (fun _ => envPrime) 82 assets stC9 =
        .error { stC9 with daily_credits_used := 651 }) := by
  refine ⟨fun env c => ?_, ?_, fun st => ?_, rfl⟩
  · rcases get_decision_shape env with ⟨hs, h0⟩ | ⟨ind, hs⟩
    · rw [hs c, h0]
      rfl
    · rw [hs c]
      rfl
  · intro envs base syms
    induction syms with
    | nil =>
        intro st p h
        injection h with h2
        subst h2
        exact ⟨le_refl _, by simp⟩
    | cons sym rest ih =>
        intro st p h
        unfold run_scanner_round at h
        cases ha : analyze_one (envs sym) base sym st with
        | error e => rw [ha] at h; exact Except.noConfusion h
        | ok r1 =>
            have h12 := analyze_one_ok_eq _ _ _ _ _ ha
            subst h12
            rw [ha] at h
            dsimp only at h
            cases hb : run_scanner_round envs base rest (credit_checks st).1 with
            | error e => rw [hb] at h; exact Except.noConfusion h
            | ok r3 =>
                obtain ⟨st3, evs3⟩ := r3
                rw [hb] at h
                injection h with h2
                subst h2
                obtain ⟨ih1, ih2⟩ := ih (credit_checks st).1 (st3, evs3) hb
                have hcc1 : (credit_checks st).1.daily_credits_used ≤ st.daily_credits_used := by
                  unfold credit_checks
                  dsimp only
                  split_ifs <;> simp
                have hcc2 : (credit_checks st).2.any isCreditAlert = true →
                    CREDITS_WARNING_THRESHOLD ≤ st.daily_credits_used := by
                  unfold credit_checks
                  dsimp only
                  split_ifs <;> simp_all [isCreditAlert]
                refine ⟨le_trans ih1 hcc1, fun hal => ?_⟩
                simp only [List.any_cons, List.any_append, Bool.or_eq_true] at hal
                rcases hal with hal | hal | hal
                · simp [isCreditAlert] at hal
                · rcases hal with hal | hal
                  · simp [isCreditAlert] at hal
                  · exact hcc2 hal
                · exact le_trans (ih2 hal) hcc1
  · unfold credit_checks
    dsimp only
    split_ifs <;> simp_all [isCreditAlert]

/-- Witness for C9: a fully failing round returns with the counter not
raised and no alert due unless the round already started over the
threshold. -/
theorem credit_alert_unreachable_witness :
    run_scanner_round (fun _ => envNoData) 82 assets initState =
        .ok (initState, assets.map Event.scanLog) ∧
    (((initState, assets.map Event.scanLog) : BotState × List Event).1.daily_credits_used ≤
        initState.daily_credits_used ∧
      (((initState, assets.map Event.scanLog) : BotState × List Event).2.any isCreditAlert = true →
        CREDITS_WARNING_THRESHOLD ≤ initState.daily_credits_used)) :=
  ⟨rfl, credit_alert_unreachable.2.1 (fun _ => envNoData) 82 assets initState
      (initState, assets.map Event.scanLog) rfl⟩

/-- C10 (code bug): the `.get` defaults of lines 250 and 267 never execute.
No parsed decision — confidence-less or otherwise — ever reaches
`analyze_one`: every returning call is a silent no-op, and the very kind
of symbol whose oracle would hand back a key-less verdict (a fallback-
priced symbol) instead raises at the prompt before the Groq call,
escaping with the module state unchanged (its fallback fetch consumes no
credit). -/
theorem policy_defaults_dead :
    (∀ (env : Env) (base : Int) (symbol : String) (st : BotState)
        (p : BotState × List Event),
        analyze_one env base symbol st = .ok p → p = (st, [])) ∧
    (analyze_one envFallback 82 "EUR/USD" initState = .error initState) := by
  exact ⟨fun env base symbol st p h => analyze_one_ok_eq env base symbol st p h, rfl⟩

/-- Witness for C10: a no-data symbol's `analyze_one` returns the untouched
state with no events. -/
theorem policy_defaults_dead_witness :
    analyze_one envNoData 82 "GBP/USD" initState = .ok (initState, []) ∧
    ((initState, ([] : List Event)) = ((initState, []) : BotState × List Event)) :=
  ⟨rfl, policy_defaults_dead.1 envNoData 82 "GBP/USD" initState (initState, []) rfl⟩

end AajeBot
